import Mathlib

/-!
Verification of the task-tracking UI (TaskList / TaskForm) against its
natural-language specification.  The two source components are embedded
shallowly: React state becomes explicit record types, each event handler
becomes a pure function from the current state and the outcome of its
remote calls to the next state together with the remote commands it issued
and the notifications it emitted.
-/

namespace LoginTaskLog

/-- Embeds `Task['status']` — the closed status enum of a task record. -/
inductive Status where
  | pending
  | in_progress
  | completed
deriving DecidableEq, Repr

/-- Embeds `Task['priority']` — the closed priority enum of a task record. -/
inductive Priority where
  | low
  | medium
  | high
deriving DecidableEq, Repr

/-- The `Task` record (`@/types/task`): fields as stored in the `tasks` table.
`created_at` is modelled as a `Nat` timestamp (the store's insertion clock),
which is all the ordering claims need. -/
structure Task where
  id : String
  title : String
  description : Option String
  status : Status
  priority : Priority
  due_date : Option String
  created_at : Nat
  user_id : String
deriving DecidableEq, Repr

/-- One toast notification: `variant` is `some "destructive"` for errors and
`none` for the default (success) styling, matching the `toast({...})` calls. -/
structure Toast where
  variant : Option String
  title : String
  description : String
deriving DecidableEq, Repr

/-! ## TaskList component state (src/unnamed/part_000, `TaskList`) -/

/-- The React state of the `TaskList` component: `tasks`, `loading`,
`showForm`, `editingTask`. -/
structure TaskListState where
  tasks : List Task
  loading : Bool
  showForm : Bool
  editingTask : Option Task
deriving DecidableEq, Repr

/-! ## Display-mapping helpers (part_000 lines 95–125)

At runtime a status or priority is a JavaScript string, and each helper is a
`switch` over that string with a `default` arm; the helpers are therefore
embedded over `String` so that behaviour on values outside the closed enums
is expressible. -/

/-- Embeds `getStatusColor` (part_000 lines 95–101). -/
def getStatusColor (status : String) : String :=
  if status = "completed" then "bg-green-100 text-green-800"
  else if status = "in_progress" then "bg-yellow-100 text-yellow-800"
  else "bg-gray-100 text-gray-800"

/-- Embeds `getPriorityColor` (part_000 lines 103–109). -/
def getPriorityColor (priority : String) : String :=
  if priority = "high" then "bg-red-100 text-red-800"
  else if priority = "medium" then "bg-orange-100 text-orange-800"
  else "bg-blue-100 text-blue-800"

/-- Embeds `getStatusText` (part_000 lines 111–117). -/
def getStatusText (status : String) : String :=
  if status = "completed" then "Završeno"
  else if status = "in_progress" then "U toku"
  else "Na čekanju"

/-- Embeds `getPriorityText` (part_000 lines 119–125). -/
def getPriorityText (priority : String) : String :=
  if priority = "high" then "Visok"
  else if priority = "medium" then "Srednji"
  else "Nizak"

/-! ## Status-change buttons (part_000 lines 227–256) -/

/-- The status-change targets rendered for a task, read off the JSX:
when the status is not `completed`, a "Počni" button (target `in_progress`)
is shown only for `pending`, followed by a "Završi" button (target
`completed`); when the status is `completed`, only "Vrati na čekanje"
(target `pending`) is shown. -/
def offeredTargets (status : Status) : List Status :=
  (if status ≠ Status.completed then
    (if status = Status.pending then [Status.in_progress] else []) ++
      [Status.completed]
  else []) ++
  (if status = Status.completed then [Status.pending] else [])

/-- C4: For every task in the rendered list, the set of status-change targets
offered is exactly a function of its current status: from `pending`, the
targets `in_progress` and `completed`; from `in_progress`, only `completed`;
from `completed`, only `pending`; no other transition is offered. -/
theorem offeredTargets_spec :
    offeredTargets Status.pending = [Status.in_progress, Status.completed] ∧
    offeredTargets Status.in_progress = [Status.completed] ∧
    offeredTargets Status.completed = [Status.pending] := by
  decide

/-- C9: The four display-mapping helpers (status → label, status → color,
priority → label, priority → color) are total functions that never fail:
for any input outside the recognized enum values, the status mappings
return the pending mapping and the priority mappings return the low
mapping. -/
theorem display_helpers_fallback (s p : String)
    (hs1 : s ≠ "pending") (hs2 : s ≠ "in_progress") (hs3 : s ≠ "completed")
    (hp1 : p ≠ "low") (hp2 : p ≠ "medium") (hp3 : p ≠ "high") :
    getStatusColor s = getStatusColor "pending" ∧
    getStatusText s = getStatusText "pending" ∧
    getPriorityColor p = getPriorityColor "low" ∧
    getPriorityText p = getPriorityText "low" := by
  refine ⟨?_, ?_, ?_, ?_⟩ <;>
    simp [getStatusColor, getStatusText, getPriorityColor, getPriorityText,
      hs2, hs3, hp2, hp3]

/-- Witness for C9 at the unrecognized inputs "archived" / "urgent". -/
theorem display_helpers_fallback_witness :
    getStatusColor "archived" = getStatusColor "pending" ∧
    getStatusText "archived" = getStatusText "pending" ∧
    getPriorityColor "urgent" = getPriorityColor "low" ∧
    getPriorityText "urgent" = getPriorityText "low" :=
  display_helpers_fallback "archived" "urgent"
    (by decide) (by decide) (by decide) (by decide) (by decide) (by decide)

/-! ## Remote store and the TaskList event handlers (part_000) -/

/-- Descending order on `created_at`: `r a b` holds when `a` was created no
earlier than `b` ("newest first"). -/
def createdAtGe (a b : Task) : Prop := b.created_at ≤ a.created_at

instance : DecidableRel createdAtGe := fun a b => Nat.decLe _ _

instance : IsTotal Task createdAtGe := ⟨fun a b => Nat.le_total _ _⟩

instance : IsTrans Task createdAtGe :=
  ⟨fun _ _ _ hab hbc => Nat.le_trans hbc hab⟩

/-- Modelled from the spec: the `select('*')` issued by `fetchTasks`
(part_000 lines 24–27) carries no explicit `user_id` filter in the frontend
source; the restriction to the current user's rows is enforced by the data
store's row-level security policy, which lives in the repository's database
migrations, not under the frontend source tree.  Per the spec's interface
description: `select all where user_id = current, order by created_at desc`. -/
def selectTasks (store : List Task) (currentUser : String) : List Task :=
  List.insertionSort createdAtGe
    (store.filter (fun t => t.user_id == currentUser))

/-- Embeds `fetchTasks` (part_000 lines 22–40): `remote` is the outcome of the
awaited select — `some rows` on success, `none` when the call errors.  On
success `setTasks(data || [])` replaces the list wholesale; on error a
destructive toast is emitted and the list is untouched; the `finally` block
clears `loading` on both paths. -/
def fetchTasks (s : TaskListState) (remote : Option (List Task)) :
    TaskListState × List Toast :=
  match remote with
  | some data => ({ s with tasks := data, loading := false }, [])
  | none =>
      ({ s with loading := false },
        [⟨some "destructive", "Greška", "Nije moguće učitati zadatke"⟩])

/-- Operation `Load()`: `fetchTasks` run against the modelled store — when the remote
call succeeds the select returns the current user's rows ordered by
`created_at` descending. -/
def loadTasks (s : TaskListState) (store : List Task) (currentUser : String)
    (remoteOk : Bool) : TaskListState × List Toast :=
  fetchTasks s (if remoteOk then some (selectTasks store currentUser) else none)

/-- Embeds `handleDeleteTask` (part_000 lines 46–67): on remote success the local
list is filtered to the entries whose id differs; on remote error the state
is untouched and a destructive toast is shown. -/
def handleDeleteTask (s : TaskListState) (id : String) (remoteOk : Bool) :
    TaskListState × List Toast :=
  if remoteOk then
    ({ s with tasks := s.tasks.filter (fun task => task.id != id) },
      [⟨none, "Uspešno!", "Zadatak je obrisan"⟩])
  else
    (s, [⟨some "destructive", "Greška", "Nije moguće obrisati zadatak"⟩])

/-- Embeds `handleStatusChange` (part_000 lines 69–93): on remote success the
matching entry's status is patched in place by a map; on remote error the
state is untouched and a destructive toast is shown. -/
def handleStatusChange (s : TaskListState) (id : String) (newStatus : Status)
    (remoteOk : Bool) : TaskListState × List Toast :=
  if remoteOk then
    ({ s with tasks := s.tasks.map (fun task =>
        if task.id = id then { task with status := newStatus } else task) },
      [⟨none, "Uspešno!", "Status zadatka je ažuriran"⟩])
  else
    (s, [⟨some "destructive", "Greška", "Nije moguće ažurirati status"⟩])

/-- The `onSave` continuation passed to `TaskForm` (part_000 lines 131–139):
when `editingTask` is set (update) the matching entry is replaced by id via
a map; otherwise (create) the saved record is prepended; `showForm` and
`editingTask` are cleared either way. -/
def onSaveHandler (s : TaskListState) (task : Task) : TaskListState :=
  match s.editingTask with
  | some _ =>
      { s with
        tasks := s.tasks.map (fun t => if t.id = task.id then task else t),
        showForm := false, editingTask := none }
  | none =>
      { s with
        tasks := task :: s.tasks,
        showForm := false, editingTask := none }

/-! ## TaskForm component (src/src/components/tasks/TaskForm.tsx) -/

/-- The React state of the `TaskForm` component: the four field values plus
the `loading` (submitting) flag. -/
structure TaskFormState where
  title : String
  description : String
  priority : Priority
  dueDate : String
  loading : Bool
deriving DecidableEq, Repr

/-- The `taskData` command payload (TaskForm.tsx lines 33–38). -/
structure TaskData where
  title : String
  description : Option String
  priority : Priority
  due_date : Option String
deriving DecidableEq, Repr

/-- Applying `new Date(d).toISOString()` to a date-input value `yyyy-mm-dd`
(TaskForm.tsx line 37) parses the date at UTC midnight, i.e. produces the
start-of-day timestamp `yyyy-mm-ddT00:00:00.000Z`. -/
def dateToTimestamp (d : String) : String := d ++ "T00:00:00.000Z"

/-- Payload `taskData` as built by `handleSubmit`: `title` is passed through as-is
(the source does not trim it); `description || null` maps the empty string
to null; `dueDate ? new Date(dueDate).toISOString() : null`. -/
def buildTaskData (s : TaskFormState) : TaskData :=
  { title := s.title,
    description := if s.description = "" then none else some s.description,
    priority := s.priority,
    due_date := if s.dueDate = "" then none
      else some (dateToTimestamp s.dueDate) }

/-- A remote write command issued by `handleSubmit`: an update by id or an
insert carrying the payload plus the authenticated `user_id`. -/
inductive RemoteCmd where
  | update (id : String) (data : TaskData)
  | insert (data : TaskData) (user_id : String)
deriving DecidableEq, Repr

/-- The payload carried by a remote write command. -/
def RemoteCmd.payload : RemoteCmd → TaskData
  | RemoteCmd.update _ d => d
  | RemoteCmd.insert d _ => d

/-- Everything observable about one run of `handleSubmit`: the remote
commands issued, the record passed to `onSave` (`none` when `onSave` was not
invoked), the toasts emitted, and the form state afterwards. -/
structure SubmitOutcome where
  cmds : List RemoteCmd
  saved : Option Task
  toasts : List Toast
  form : TaskFormState
deriving DecidableEq, Repr

/-- Embeds `handleSubmit` (TaskForm.tsx lines 28–77).  `taskSeed` is the `task`
prop (`some` in edit mode, `none` in create mode), `authUser` the user id
returned by `supabase.auth.getUser()` (`none` when no session), and
`remote` the record returned by the awaited insert/update (`none` when the
call returns `result.error`).  The `catch` arm emits the mode-dependent
error toast; the `finally` arm clears `loading` on every path. -/
def handleSubmit (taskSeed : Option Task) (s : TaskFormState)
    (authUser : Option String) (remote : Option Task) : SubmitOutcome :=
  let taskData := buildTaskData s
  match taskSeed with
  | some t =>
    match remote with
    | some savedTask =>
        { cmds := [RemoteCmd.update t.id taskData], saved := some savedTask,
          toasts := [⟨none, "Uspešno!", "Zadatak je ažuriran"⟩],
          form := { s with loading := false } }
    | none =>
        { cmds := [RemoteCmd.update t.id taskData], saved := none,
          toasts :=
            [⟨some "destructive", "Greška", "Nije moguće ažurirati zadatak"⟩],
          form := { s with loading := false } }
  | none =>
    match authUser with
    | none =>
        { cmds := [], saved := none,
          toasts :=
            [⟨some "destructive", "Greška", "Nije moguće kreirati zadatak"⟩],
          form := { s with loading := false } }
    | some uid =>
      match remote with
      | some savedTask =>
          { cmds := [RemoteCmd.insert taskData uid],
            saved := some savedTask,
            toasts := [⟨none, "Uspešno!", "Zadatak je kreiran"⟩],
            form := { s with loading := false } }
      | none =>
          { cmds := [RemoteCmd.insert taskData uid], saved := none,
            toasts :=
              [⟨some "destructive", "Greška", "Nije moguće kreirati zadatak"⟩],
            form := { s with loading := false } }

/-- One submission attempt as seen from the browser.  The title input
carries the HTML `required` attribute (TaskForm.tsx line 96), so the browser
blocks form submission — `handleSubmit` never runs — exactly when the field
value is the empty string; any other value, including whitespace-only text,
satisfies the constraint and `handleSubmit` runs.  `handleSubmit` itself
contains no title guard. -/
def submitForm (taskSeed : Option Task) (s : TaskFormState)
    (authUser : Option String) (remote : Option Task) : SubmitOutcome :=
  if s.title = "" then { cmds := [], saved := none, toasts := [], form := s }
  else handleSubmit taskSeed s authUser remote

/-! ## Concrete records used by the witnesses -/

/-- A concrete task owned by user `u1`. -/
def demoTask1 : Task :=
  { id := "t1", title := "Buy milk", description := none,
    status := Status.pending, priority := Priority.medium,
    due_date := none, created_at := 2, user_id := "u1" }

/-- A second concrete task owned by user `u1`. -/
def demoTask2 : Task :=
  { id := "t2", title := "Write report", description := some "quarterly",
    status := Status.in_progress, priority := Priority.high,
    due_date := some "2025-01-01T00:00:00.000Z", created_at := 1,
    user_id := "u1" }

/-- A concrete task owned by a different user. -/
def demoTask3 : Task :=
  { id := "t3", title := "Other persons task", description := none,
    status := Status.completed, priority := Priority.low,
    due_date := none, created_at := 3, user_id := "u2" }

/-- The remote store holding rows of two different users. -/
def demoStore : List Task := [demoTask2, demoTask1, demoTask3]

/-- The component's initial state (`useState` defaults). -/
def initialState : TaskListState :=
  { tasks := [], loading := true, showForm := false, editingTask := none }

/-- A list state holding the two `u1` tasks, not in edit mode. -/
def demoState : TaskListState :=
  { tasks := [demoTask1, demoTask2], loading := false, showForm := false,
    editingTask := none }

/-- State `demoState` while editing `demoTask1`. -/
def demoStateEditing : TaskListState :=
  { demoState with editingTask := some demoTask1 }

/-! ## Claim theorems for the TaskList component -/

/-- C3: Load() issues a read restricted to tasks belonging to the current
user, ordered by `created_at` descending; on success it replaces the local
list wholesale with the result; on failure it leaves the prior local list
untouched; and in both cases the loading indicator state is terminated. -/
theorem load_spec (s : TaskListState) (store : List Task) (u : String) :
    (loadTasks s store u true).1.tasks = selectTasks store u ∧
    (∀ t ∈ (loadTasks s store u true).1.tasks, t.user_id = u) ∧
    (loadTasks s store u true).1.tasks.Pairwise
      (fun a b => b.created_at ≤ a.created_at) ∧
    (loadTasks s store u true).1.loading = false ∧
    (loadTasks s store u false).1.tasks = s.tasks ∧
    (loadTasks s store u false).1.loading = false := by
  refine ⟨rfl, ?_, ?_, rfl, rfl, rfl⟩
  · intro t ht
    have hmem : t ∈ store.filter (fun t => t.user_id == u) := by
      simpa [loadTasks, fetchTasks, selectTasks,
        List.mem_insertionSort] using ht
    simpa using (List.mem_filter.mp hmem).2
  · exact List.sorted_insertionSort createdAtGe
      (store.filter (fun t => t.user_id == u))

/-- Witness for C3 on a store holding rows of two users. -/
theorem load_spec_witness :
    (loadTasks initialState demoStore "u1" true).1.tasks =
      selectTasks demoStore "u1" ∧
    demoTask1.user_id = "u1" ∧
    (loadTasks initialState demoStore "u1" false).1.tasks = [] ∧
    (loadTasks initialState demoStore "u1" true).1.loading = false :=
  ⟨(load_spec initialState demoStore "u1").1,
    (load_spec initialState demoStore "u1").2.1 demoTask1 (by decide),
    (load_spec initialState demoStore "u1").2.2.2.2.1,
    (load_spec initialState demoStore "u1").2.2.2.1⟩

/-- C5: For every list of tasks and every id present in it, a successful
ChangeStatus(id, s) produces a list in which the entry with that id has
status s and every other field of that entry, and every other entry, is
identical to before; on failure the list is unchanged. -/
theorem handleStatusChange_frame (s : TaskListState) (id : String)
    (st : Status) :
    (handleStatusChange s id st true).1.tasks.length = s.tasks.length ∧
    (∀ i (hi : i < s.tasks.length)
        (hi1 : i < (handleStatusChange s id st true).1.tasks.length),
      (s.tasks.get ⟨i, hi⟩).id = id →
        ((handleStatusChange s id st true).1.tasks.get ⟨i, hi1⟩).status = st ∧
        ((handleStatusChange s id st true).1.tasks.get ⟨i, hi1⟩).id =
          (s.tasks.get ⟨i, hi⟩).id ∧
        ((handleStatusChange s id st true).1.tasks.get ⟨i, hi1⟩).title =
          (s.tasks.get ⟨i, hi⟩).title ∧
        ((handleStatusChange s id st true).1.tasks.get ⟨i, hi1⟩).description =
          (s.tasks.get ⟨i, hi⟩).description ∧
        ((handleStatusChange s id st true).1.tasks.get ⟨i, hi1⟩).priority =
          (s.tasks.get ⟨i, hi⟩).priority ∧
        ((handleStatusChange s id st true).1.tasks.get ⟨i, hi1⟩).due_date =
          (s.tasks.get ⟨i, hi⟩).due_date ∧
        ((handleStatusChange s id st true).1.tasks.get ⟨i, hi1⟩).created_at =
          (s.tasks.get ⟨i, hi⟩).created_at ∧
        ((handleStatusChange s id st true).1.tasks.get ⟨i, hi1⟩).user_id =
          (s.tasks.get ⟨i, hi⟩).user_id) ∧
    (∀ i (hi : i < s.tasks.length)
        (hi1 : i < (handleStatusChange s id st true).1.tasks.length),
      (s.tasks.get ⟨i, hi⟩).id ≠ id →
        (handleStatusChange s id st true).1.tasks.get ⟨i, hi1⟩ =
          s.tasks.get ⟨i, hi⟩) ∧
    (handleStatusChange s id st false).1 = s := by
  refine ⟨by simp [handleStatusChange], ?_, ?_, rfl⟩
  · intro i hi hi1 hid
    rw [List.get_eq_getElem] at hid
    have hg : (handleStatusChange s id st true).1.tasks.get ⟨i, hi1⟩ =
        { s.tasks.get ⟨i, hi⟩ with status := st } := by
      simp [handleStatusChange, List.get_eq_getElem, hid]
    rw [hg]
    exact ⟨rfl, rfl, rfl, rfl, rfl, rfl, rfl, rfl⟩
  · intro i hi hi1 hid
    rw [List.get_eq_getElem] at hid
    simp [handleStatusChange, List.get_eq_getElem, hid]

/-- Witness for C5 at `demoState`: changing `t1` to completed sets its
status, keeps the entry at index 1 untouched, and a failed call leaves the
state unchanged. -/
theorem handleStatusChange_frame_witness :
    ((handleStatusChange demoState "t1" Status.completed true).1.tasks.get
        ⟨0, by decide⟩).status = Status.completed ∧
    (handleStatusChange demoState "t1" Status.completed true).1.tasks.get
        ⟨1, by decide⟩ = demoState.tasks.get ⟨1, by decide⟩ ∧
    (handleStatusChange demoState "t1" Status.completed false).1 =
      demoState :=
  ⟨((handleStatusChange_frame demoState "t1" Status.completed).2.1 0
      (by decide) (by decide) (by decide)).1,
    (handleStatusChange_frame demoState "t1" Status.completed).2.2.1 1
      (by decide) (by decide) (by decide),
    (handleStatusChange_frame demoState "t1" Status.completed).2.2.2⟩

/-- In a list whose ids are pairwise distinct and contain `id`, filtering
out the matching id removes exactly one element. -/
theorem length_filter_id_ne (l : List Task) (id : String)
    (hnd : (l.map Task.id).Nodup) (hm : id ∈ l.map Task.id) :
    (l.filter (fun t => t.id != id)).length + 1 = l.length := by
  induction l with
  | nil => simp at hm
  | cons t ts ih =>
    rw [List.map_cons, List.nodup_cons] at hnd
    obtain ⟨hni, hnd2⟩ := hnd
    by_cases h : t.id = id
    · subst h
      rw [List.filter_cons_of_neg (by simp)]
      rw [List.filter_eq_self.mpr ?_]
      · simp
      · intro u hu
        have hne : u.id ≠ t.id := by
          intro hc
          exact hni (by rw [← hc]; exact List.mem_map_of_mem Task.id hu)
        simpa using hne
    · rw [List.filter_cons_of_pos (by simp [h])]
      have hm2 : id ∈ ts.map Task.id := by
        rw [List.map_cons, List.mem_cons] at hm
        rcases hm with hc | hc
        · exact absurd hc.symm h
        · exact hc
      have hlen := ih hnd2 hm2
      simp only [List.length_cons]
      omega

/-- C6: For every list of tasks with unique ids, a successful Delete(id)
removes exactly the one entry whose id matches (zero entries if the id is
absent), a failed Delete(id) removes zero entries and leaves the list
unchanged, and a second Delete(id) after a successful one is a no-op on
local state. -/
theorem handleDeleteTask_spec (s : TaskListState) (id : String)
    (hnd : (s.tasks.map Task.id).Nodup) :
    (∀ t, t ∈ (handleDeleteTask s id true).1.tasks ↔
      (t ∈ s.tasks ∧ t.id ≠ id)) ∧
    (id ∈ s.tasks.map Task.id →
      (handleDeleteTask s id true).1.tasks.length + 1 = s.tasks.length) ∧
    (id ∉ s.tasks.map Task.id →
      (handleDeleteTask s id true).1.tasks = s.tasks) ∧
    (handleDeleteTask s id false).1 = s ∧
    (handleDeleteTask (handleDeleteTask s id true).1 id true).1 =
      (handleDeleteTask s id true).1 := by
  refine ⟨?_, ?_, ?_, rfl, ?_⟩
  · intro t
    simp [handleDeleteTask, List.mem_filter, and_comm]
  · intro hm
    simpa [handleDeleteTask] using length_filter_id_ne s.tasks id hnd hm
  · intro habs
    simp only [handleDeleteTask, if_pos rfl]
    refine congrArg (fun l => ({ s with tasks := l } : TaskListState).tasks) ?_
    apply List.filter_eq_self.mpr
    intro u hu
    have hne : u.id ≠ id := by
      intro hc
      exact habs (by rw [← hc]; exact List.mem_map_of_mem Task.id hu)
    simpa using hne
  · simp [handleDeleteTask, List.filter_filter]

/-- Witness for C6 at `demoState`: deleting `t1` removes exactly that entry,
a failed delete changes nothing, and a repeated delete is a no-op. -/
theorem handleDeleteTask_spec_witness :
    (demoTask2 ∈ (handleDeleteTask demoState "t1" true).1.tasks ↔
      (demoTask2 ∈ demoState.tasks ∧ demoTask2.id ≠ "t1")) ∧
    (handleDeleteTask demoState "t1" true).1.tasks.length + 1 =
      demoState.tasks.length ∧
    (handleDeleteTask demoState "t1" false).1 = demoState ∧
    (handleDeleteTask (handleDeleteTask demoState "t1" true).1 "t1"
        true).1 = (handleDeleteTask demoState "t1" true).1 :=
  ⟨(handleDeleteTask_spec demoState "t1" (by decide)).1 demoTask2,
    (handleDeleteTask_spec demoState "t1" (by decide)).2.1 (by decide),
    (handleDeleteTask_spec demoState "t1" (by decide)).2.2.2.1,
    (handleDeleteTask_spec demoState "t1" (by decide)).2.2.2.2⟩

/-- C7: When the onSave continuation is invoked with a saved record: if the
edit session was a create, the record is prepended to the front of the local
list (all existing entries preserved in order); if it was an update, the
record replaces the entry with the matching id (list length unchanged, no
duplicate inserted); and edit mode is exited in both cases. -/
theorem onSave_merge_spec (s : TaskListState) (task : Task) :
    (s.editingTask = none →
      (onSaveHandler s task).tasks = task :: s.tasks) ∧
    (∀ e, s.editingTask = some e →
      (onSaveHandler s task).tasks.length = s.tasks.length ∧
      ∀ i (hi : i < s.tasks.length)
        (hi1 : i < (onSaveHandler s task).tasks.length),
        (onSaveHandler s task).tasks.get ⟨i, hi1⟩ =
          if (s.tasks.get ⟨i, hi⟩).id = task.id then task
          else s.tasks.get ⟨i, hi⟩) ∧
    (onSaveHandler s task).showForm = false ∧
    (onSaveHandler s task).editingTask = none := by
  refine ⟨?_, ?_, ?_, ?_⟩
  · intro h
    simp [onSaveHandler, h]
  · intro e he
    refine ⟨by simp [onSaveHandler, he], ?_⟩
    intro i hi hi1
    simp [onSaveHandler, he, List.get_eq_getElem]
  · rcases h : s.editingTask with _ | e <;> simp [onSaveHandler, h]
  · rcases h : s.editingTask with _ | e <;> simp [onSaveHandler, h]

/-- Witness for C7: a create prepends, an update keeps the length and
replaces the matching entry, and edit mode is exited. -/
theorem onSave_merge_spec_witness :
    (onSaveHandler demoState demoTask3).tasks =
      demoTask3 :: demoState.tasks ∧
    (onSaveHandler demoStateEditing demoTask3).tasks.length =
      demoStateEditing.tasks.length ∧
    (onSaveHandler demoState demoTask3).showForm = false ∧
    (onSaveHandler demoStateEditing demoTask3).editingTask = none :=
  ⟨(onSave_merge_spec demoState demoTask3).1 rfl,
    ((onSave_merge_spec demoStateEditing demoTask3).2.1 demoTask1 rfl).1,
    (onSave_merge_spec demoState demoTask3).2.2.1,
    (onSave_merge_spec demoStateEditing demoTask3).2.2.2⟩

/-- Mapping a replace-by-id over a list containing no entry with the
matching id changes nothing. -/
theorem map_replace_id_eq_self (l : List Task) (task : Task)
    (habs : ∀ t ∈ l, t.id ≠ task.id) :
    l.map (fun t => if t.id = task.id then task else t) = l := by
  induction l with
  | nil => rfl
  | cons t ts ih =>
    rw [List.map_cons, if_neg (habs t (by simp)),
      ih (fun u hu => habs u (by simp [hu]))]

/-- C10: If the onSave continuation is invoked in update mode with a record
whose id matches no entry in the local list, the list is left entirely
unchanged (same length and same entries) — the replace is a silent no-op
rather than an append or an error. -/
theorem onSave_update_absent_noop (s : TaskListState) (task e : Task)
    (he : s.editingTask = some e) (habs : ∀ t ∈ s.tasks, t.id ≠ task.id) :
    (onSaveHandler s task).tasks = s.tasks := by
  rw [show (onSaveHandler s task).tasks =
      s.tasks.map (fun t => if t.id = task.id then task else t) by
    simp [onSaveHandler, he]]
  exact map_replace_id_eq_self s.tasks task habs

/-- Witness for C10: saving a record with the unknown id `t3` while editing
leaves the list exactly as it was. -/
theorem onSave_update_absent_noop_witness :
    (onSaveHandler demoStateEditing demoTask3).tasks =
      demoStateEditing.tasks :=
  onSave_update_absent_noop demoStateEditing demoTask3 demoTask1 rfl
    (by decide)

/-! ## Claim theorems for the TaskForm component -/

/-- Removal of surrounding whitespace (the behaviour of
`String.prototype.trim`), modelled on the character list. -/
def trimString (s : String) : String :=
  ⟨((s.data.dropWhile Char.isWhitespace).reverse.dropWhile
      Char.isWhitespace).reverse⟩

/-- A form state whose title is whitespace-only (a single space). -/
def wsForm : TaskFormState :=
  { title := " ", description := "", priority := Priority.medium,
    dueDate := "", loading := false }

/-- A form state whose title is the empty string. -/
def emptyTitleForm : TaskFormState :=
  { title := "", description := "notes", priority := Priority.low,
    dueDate := "", loading := false }

/-- A form state whose title carries surrounding whitespace. -/
def paddedForm : TaskFormState :=
  { title := " a ", description := "", priority := Priority.medium,
    dueDate := "", loading := false }

/-- A fully filled form state with an empty description. -/
def filledForm : TaskFormState :=
  { title := "Buy milk", description := "", priority := Priority.medium,
    dueDate := "2025-03-04", loading := false }

/-- C1 fails on the code: a whitespace-only title is not the empty string,
so it satisfies the HTML required constraint, `handleSubmit` runs (it
contains no trim-based guard), and a remote update command is issued. -/
theorem submit_whitespace_title_issues_command :
    trimString wsForm.title = "" ∧ wsForm.title ≠ "" ∧
    (submitForm (some demoTask1) wsForm none none).cmds ≠ [] := by
  decide

/-- C1 (amended): for every form state whose title is exactly the empty
string, the required-field constraint blocks submission: no remote command
is issued, onSave is not invoked, no toast is emitted, and the form state is
unchanged.  A whitespace-only title is not rejected. -/
theorem submit_empty_title_noop (taskSeed : Option Task) (s : TaskFormState)
    (authUser : Option String) (remote : Option Task) (h : s.title = "") :
    (submitForm taskSeed s authUser remote).cmds = [] ∧
    (submitForm taskSeed s authUser remote).saved = none ∧
    (submitForm taskSeed s authUser remote).toasts = [] ∧
    (submitForm taskSeed s authUser remote).form = s := by
  simp [submitForm, h]

/-- Witness for the amended C1 at an empty-title form. -/
theorem submit_empty_title_noop_witness :
    (submitForm none emptyTitleForm (some "u1") none).cmds = [] ∧
    (submitForm none emptyTitleForm (some "u1") none).saved = none ∧
    (submitForm none emptyTitleForm (some "u1") none).toasts = [] ∧
    (submitForm none emptyTitleForm (some "u1") none).form =
      emptyTitleForm :=
  submit_empty_title_noop none emptyTitleForm (some "u1") none rfl

/-- C2 fails on the code: `handleSubmit` passes the title through untrimmed,
so for the entered title " a " the issued command carries payload title
" a " while the title with surrounding whitespace trimmed is "a". -/
theorem submit_payload_title_untrimmed :
    (submitForm (some demoTask1) paddedForm none none).cmds.map
        (fun c => c.payload.title) = [" a "] ∧
    trimString paddedForm.title = "a" := by
  decide

/-- C2 (amended): for every form state that passes the title guard, each
command issued by Submit() carries a payload whose title is the entered
title exactly as typed (not trimmed), whose description is null when the
entered description is empty and otherwise the entered text, whose priority
is the selected priority, and whose due_date is null when the date field is
empty and otherwise the entered date converted to a start-of-day
timestamp. -/
theorem submit_payload_fields (taskSeed : Option Task) (s : TaskFormState)
    (authUser : Option String) (remote : Option Task) (h : s.title ≠ "") :
    ∀ c ∈ (submitForm taskSeed s authUser remote).cmds,
      c.payload.title = s.title ∧
      (s.description = "" → c.payload.description = none) ∧
      (s.description ≠ "" → c.payload.description = some s.description) ∧
      c.payload.priority = s.priority ∧
      (s.dueDate = "" → c.payload.due_date = none) ∧
      (s.dueDate ≠ "" →
        c.payload.due_date = some (dateToTimestamp s.dueDate)) := by
  intro c hc
  have hpay : c.payload = buildTaskData s := by
    rw [submitForm, if_neg h] at hc
    rcases taskSeed with _ | t <;> rcases authUser with _ | uid <;>
      rcases remote with _ | r <;>
      simp [handleSubmit] at hc <;> simp [hc, RemoteCmd.payload]
  rw [hpay]
  refine ⟨rfl, ?_, ?_, rfl, ?_, ?_⟩
  · intro hd
    simp [buildTaskData, hd]
  · intro hd
    simp [buildTaskData, hd]
  · intro hd
    simp [buildTaskData, hd]
  · intro hd
    simp [buildTaskData, hd]

/-- Witness for the amended C2 at `filledForm` in edit mode. -/
theorem submit_payload_fields_witness :
    (RemoteCmd.update "t1" (buildTaskData filledForm)).payload.title =
      filledForm.title ∧
    (RemoteCmd.update "t1" (buildTaskData filledForm)).payload.due_date =
      some (dateToTimestamp filledForm.dueDate) := by
  have h := submit_payload_fields (some demoTask1) filledForm none none
    (by decide) (RemoteCmd.update "t1" (buildTaskData filledForm))
    (by decide)
  exact ⟨h.1, h.2.2.2.2.2 (by decide)⟩

/-- C8: When Submit() runs the create path and no authenticated user is
present, no insert command is issued, onSave is not invoked, an error
notification with the create-failure wording is emitted, and the form's
field values are left intact; the same no-onSave, fields-intact outcome
holds for every remote failure of Submit(). -/
theorem submit_failure_paths (s : TaskFormState) (taskSeed : Option Task)
    (authUser : Option String) (remote : Option Task) :
    (handleSubmit none s none remote).cmds = [] ∧
    (handleSubmit none s none remote).saved = none ∧
    (handleSubmit none s none remote).toasts =
      [⟨some "destructive", "Greška", "Nije moguće kreirati zadatak"⟩] ∧
    (handleSubmit none s none remote).form.title = s.title ∧
    (handleSubmit none s none remote).form.description = s.description ∧
    (handleSubmit none s none remote).form.priority = s.priority ∧
    (handleSubmit none s none remote).form.dueDate = s.dueDate ∧
    (handleSubmit taskSeed s authUser none).saved = none ∧
    (handleSubmit taskSeed s authUser none).form.title = s.title ∧
    (handleSubmit taskSeed s authUser none).form.description =
      s.description ∧
    (handleSubmit taskSeed s authUser none).form.priority = s.priority ∧
    (handleSubmit taskSeed s authUser none).form.dueDate = s.dueDate := by
  refine ⟨rfl, rfl, rfl, rfl, rfl, rfl, rfl, ?_, ?_, ?_, ?_, ?_⟩ <;>
    rcases taskSeed with _ | t <;> rcases authUser with _ | uid <;> rfl

end LoginTaskLog
